import Mathlib

/-!
Verification model of the `file-watcher` repository.

The repository holds two versions of the same module:
- `src/lib/index.js` — the files-only watcher (modelled in namespace `V0`);
- `src/unnamed/part_000` — the extended watcher that also supports watching
  directories, has a public `getFileStat`, and only installs the interval
  timer when `interval > 0` (modelled in namespace `V1`).

Modelling conventions (shallow embedding):
- JS objects used as string-keyed maps (`pFiles`, `pDirs`/`pWatchers`) become
  association lists in insertion order, matching `for ... in` iteration order
  for non-integer string keys.
- `Path.resolve` depends on the process working directory; every claim
  quantifies over canonical absolute paths, on which `resolve` is the
  identity, so it is modelled as the identity function.
- The filesystem is an immutable snapshot per operation: a map from absolute
  paths (no trailing slash) to entries. A trailing-slash lookup succeeds only
  on a directory, as in Node (`existsSync("/a/")` is false when `/a` is a
  regular file).
- `Fs.Stats.mtime` is a timestamp; it is modelled as a `Nat` value and the
  source's `!=` comparison on it as value inequality.
- The crc32 checksum of a file's bytes is an external collaborator; a file
  entry carries its fingerprint directly.
- A JS `TypeError` (property access on `null`/`undefined`) or an `fs` throw
  (e.g. `readFileSync` of a directory raises `EISDIR`) is modelled by an
  `Option String` error component in each operation's result; mutations
  performed before the throw persist, and the rest of the operation (and of
  any enclosing loop) is aborted, exactly as an exception unwinds in JS.
- Callback invocations are collected in an `Event` list, in order.
-/

namespace FileWatcherModel

/-! ### Association-list primitives (JS object-as-map semantics) -/

/-- Key lookup in an insertion-ordered association list. -/
def lookupK {α : Type} : List (String × α) → String → Option α
  | [], _ => none
  | (k, v) :: t, k' => if k = k' then some v else lookupK t k'

/-- JS property assignment: replace in place if the key exists, else append. -/
def insertKV {α : Type} : List (String × α) → String → α → List (String × α)
  | [], k, v => [(k, v)]
  | (k', v') :: t, k, v =>
    if k' = k then (k, v) :: t else (k', v') :: insertKV t k v

/-- JS `delete obj[k]`: remove the binding, keep the order of the others. -/
def eraseK {α : Type} : List (String × α) → String → List (String × α)
  | [], _ => []
  | (k', v') :: t, k => if k' = k then t else (k', v') :: eraseK t k

/-- In-place mutation of the value bound to a key (no-op when absent). -/
def updateK {α : Type} : List (String × α) → String → (α → α) → List (String × α)
  | [], _, _ => []
  | (k', v') :: t, k, f =>
    if k' = k then (k', f v') :: t else (k', v') :: updateK t k f

/-! ### String helpers (ASCII paths; JS string ops on UTF-16 units) -/

/-- `pre.isPrefixOf s` on character lists, for JS `String.startsWith`. -/
def isPre : List Char → List Char → Bool
  | [], _ => true
  | _ :: _, [] => false
  | c :: cs, d :: ds => c == d && isPre cs ds

/-- JS `s.startsWith(pre)`. -/
def strStartsWith (s pre : String) : Bool := isPre pre.toList s.toList

/-- JS `s.substr(n)`. -/
def strDrop (s : String) (n : Nat) : String := String.mk (s.toList.drop n)

/-- JS `s.length`. -/
def strLen (s : String) : Nat := s.toList.length

/-- Characters strictly before the last slash, or `none` if there is none. -/
def dirnameAux : List Char → Option (List Char)
  | [] => none
  | c :: cs =>
    match dirnameAux cs with
    | some rest => some (c :: rest)
    | none => if c = '/' then some [] else none

/-- Node `Path.dirname` on canonical absolute paths:
`dirname "/a/b" = "/a"`, `dirname "/a" = "/"`. -/
def dirname (p : String) : String :=
  match dirnameAux p.toList with
  | none => "."
  | some [] => "/"
  | some cs => String.mk cs

/-- Node `Path.resolve`, modelled as the identity on canonical absolute
paths (resolution against the working directory is environment state; all
claims quantify over already-resolved paths). -/
def resolve (p : String) : String := p

/-! ### Filesystem snapshot -/

/-- A filesystem entry. A file's content is represented by its size and the
crc32 fingerprint the pluggable checksum would produce for its bytes. -/
inductive Entry where
  | file (size mtime crc : Nat)
  | dir (size mtime : Nat)
deriving DecidableEq, Repr

/-- A filesystem snapshot: map from trailing-slash-free absolute paths. -/
abbrev FsT := List (String × Entry)

/-- Path lookup: a trailing-slash path resolves only to a directory, as in
Node's path handling. -/
def fsGet (fs : FsT) (p : String) : Option Entry :=
  match p.toList.getLast? with
  | some '/' =>
    match lookupK fs (String.mk p.toList.dropLast) with
    | some (Entry.dir sz mt) => some (Entry.dir sz mt)
    | _ => none
  | _ => lookupK fs p

/-- `Fs.existsSync`. -/
def existsSync (fs : FsT) (p : String) : Bool := (fsGet fs p).isSome

/-! ### Watcher data model (shared between the two source versions) -/

/-- The slice of `Fs.Stats` the watcher reads, plus the `crc32` property the
watcher attaches when validation is on (`none` models a missing property /
JS `undefined`). `isDir` models `isDirectory()` (`isFile()` is its negation
for entries that exist). -/
structure Stat where
  size : Nat
  mtime : Nat
  isDir : Bool
  crc32 : Option Nat
deriving DecidableEq, Repr

/-- A `pFiles` entry: `{ name, stat }`; `stat = none` models JS `null`. -/
structure FileStub where
  name : String
  stat : Option Stat
deriving DecidableEq, Repr

/-- A directory-group stub `{ handler, count }` (plus the `watchDir` flag
that only `part_000` ever sets; in `lib/index.js` the property is absent,
i.e. `undefined`, which is falsy — modelled as `false`). `handler = true`
models a live native watch handle. -/
structure DirStub where
  handler : Bool
  count : Int
  watchDir : Bool
deriving DecidableEq, Repr

/-- Recognized constructor options with their defaults
`interval = 10000, validate = false, fullName = true`. -/
structure Opts where
  interval : Int
  validate : Bool
  fullName : Bool
deriving DecidableEq, Repr

/-- The default options installed by `$extend`. -/
def defaultOpts : Opts := { interval := 10000, validate := false, fullName := true }

/-- The third callback argument: the live classification path passes the
stored stat object, `restore` passes `nstat.crc32` (a bare number or
`undefined`), and `part_000`'s directory branch passes nothing. -/
inductive CbArg where
  | stat (s : Option Stat)
  | crc (c : Option Nat)
  | undef
deriving DecidableEq, Repr

/-- One callback invocation `(evt, name, arg)`. -/
structure Event where
  evt : String
  name : String
  arg : CbArg
deriving DecidableEq, Repr

def kFileChangeEventName : String := "change"
def kFileRenameEventName : String := "rename"
def kFileRemoveEventName : String := "remove"
def kFileCreateEventName : String := "create"

/-! ## V0 — `src/lib/index.js` (files-only watcher) -/

namespace V0

/-- The watcher instance state. `pTimer = true` records that the interval
timer installed by the constructor is in place (nothing ever clears it). -/
structure State where
  pFiles : List (String × FileStub)
  pDirs : List (String × DirStub)
  pOptions : Opts
  pTimer : Bool
deriving DecidableEq, Repr

/-- The `FileWatcher` constructor: empty maps, `$extend`ed options, and an
unconditional `setInterval` (the timer is installed even for
`interval <= 0` in this version). -/
def mkFileWatcher (opts : Opts) : State :=
  { pFiles := [], pDirs := [], pOptions := opts, pTimer := true }

/-- `pGetFileStat`: `null` for a missing path, else `statSync` plus — when
`validate` is on — `crc32(readFileSync(file))`, which throws `EISDIR` when
the path is a directory (there is no `isFile()` guard in this version). -/
def pGetFileStat (validate : Bool) (fs : FsT) (file : String) :
    Except String (Option Stat) :=
  match fsGet fs file with
  | none => Except.ok none
  | some (Entry.file sz mt c) =>
    Except.ok (some { size := sz, mtime := mt, isDir := false,
                      crc32 := if validate then some c else none })
  | some (Entry.dir sz mt) =>
    if validate then Except.error "EISDIR: readFileSync on a directory"
    else Except.ok (some { size := sz, mtime := mt, isDir := true, crc32 := none })

/-- `pWatchDir`: open a native handle if the stub has none and the directory
exists. Reading `.handler` of a missing stub would throw. -/
def pWatchDir (s : State) (fs : FsT) (dir : String) : State × Option String :=
  match lookupK s.pDirs dir with
  | none => (s, some "TypeError: cannot read handler of undefined")
  | some stub =>
    if stub.handler || !existsSync fs dir then (s, none)
    else
      let pDirs := updateK s.pDirs dir (fun st => { st with handler := true })
      ({ s with pDirs := pDirs }, none)

/-- `pUnwatchDir`: close the handle if live. Reading `.handler` of a missing
stub would throw. -/
def pUnwatchDir (s : State) (dir : String) : State × Option String :=
  match lookupK s.pDirs dir with
  | none => (s, some "TypeError: cannot read handler of undefined")
  | some stub =>
    if stub.handler then
      let pDirs := updateK s.pDirs dir (fun st => { st with handler := false })
      ({ s with pDirs := pDirs }, none)
    else (s, none)

/-- The group-management tail of `watch`: create the group stub if absent
(and open its native watch via `pWatchDir`), then bump its `count`. -/
def watchGroups (s : State) (fs : FsT) (dir : String) : State × Option String :=
  let r :=
    if (lookupK s.pDirs dir).isSome then (s, none)
    else
      let pDirs := insertKV s.pDirs dir
        { handler := false, count := 0, watchDir := false }
      pWatchDir { s with pDirs := pDirs } fs dir
  match r with
  | (s, some e) => (s, some e)
  | (s, none) =>
    let pDirs := updateK s.pDirs dir (fun st => { st with count := st.count + 1 })
    ({ s with pDirs := pDirs }, none)

/-- `watch(file)`: no-op when already present; otherwise record the stub
(name per `fullName` option, probed stat), then run the group management for
`dirname(path) + "/"`. The probe's possible `EISDIR` throw happens while the
stub object literal is being built, i.e. before `pFiles` is assigned. -/
def watch (s : State) (fs : FsT) (file : String) : State × Option String :=
  let fullName := resolve file
  match lookupK s.pFiles fullName with
  | some _ => (s, none)
  | none =>
    match pGetFileStat s.pOptions.validate fs fullName with
    | Except.error e => (s, some e)
    | Except.ok st =>
      let stub : FileStub :=
        { name := if s.pOptions.fullName then fullName else file, stat := st }
      watchGroups { s with pFiles := insertKV s.pFiles fullName stub } fs
        (dirname fullName ++ "/")

/-- `unwatch(file)`: no-op when not watched; otherwise delete the entry,
pre-decrement the owning group's `count`, and when it reaches `0` close and
delete the group. -/
def unwatch (s : State) (file : String) : State × Option String :=
  let fullName := resolve file
  match lookupK s.pFiles fullName with
  | none => (s, none)
  | some _ =>
    let s := { s with pFiles := eraseK s.pFiles fullName }
    let dir := dirname fullName ++ "/"
    match lookupK s.pDirs dir with
    | none => (s, some "TypeError: cannot read count of undefined")
    | some stub =>
      let stub := { stub with count := stub.count - 1 }
      let s := { s with pDirs := updateK s.pDirs dir (fun _ => stub) }
      if stub.count = 0 then
        match pUnwatchDir s dir with
        | (s, some e) => (s, some e)
        | (s, none) => ({ s with pDirs := eraseK s.pDirs dir }, none)
      else (s, none)

/-- `pCheckFileExistenceChange`: the existence-XOR rule —
`(file.stat !== null) ^ (nstat !== null)` then `create` when the new stat
exists, `remove` otherwise, `null` when existence did not change. -/
def pCheckFileExistenceChange (s : State) (fullName : String)
    (nstat : Option Stat) : Option String :=
  match lookupK s.pFiles fullName with
  | none => none
  | some stub =>
    if Bool.xor stub.stat.isSome nstat.isSome then
      if nstat.isSome then some kFileCreateEventName
      else some kFileRemoveEventName
    else none

/-- `pHandleChange(dir, evt, file)`: drop unless `dir + file` is watched;
re-probe; on `rename` apply the existence-XOR rule (`|| evt` keeps the raw
`rename` when existence did not change); on `change` with validation,
suppress when size and crc32 both match (dereferencing `.size` of a `null`
stat throws); then unconditionally store the new stat and invoke the
callback with `(evt, file.name, file.stat)` when an event survives. -/
def pHandleChange (s : State) (fs : FsT) (dir evt fileName : String) :
    State × List Event × Option String :=
  let fullName := dir ++ fileName
  match lookupK s.pFiles fullName with
  | none => (s, [], none)
  | some stub =>
    match pGetFileStat s.pOptions.validate fs fullName with
    | Except.error e => (s, [], some e)
    | Except.ok nstat =>
      let evtE : Except String (Option String) :=
        if evt = kFileRenameEventName then
          Except.ok (some ((pCheckFileExistenceChange s fullName nstat).getD evt))
        else if evt = kFileChangeEventName ∧ s.pOptions.validate then
          match nstat, stub.stat with
          | some n, some o =>
            if n.size = o.size ∧ n.crc32 = o.crc32 then Except.ok none
            else Except.ok (some evt)
          | _, _ => Except.error "TypeError: cannot read size of null"
        else Except.ok (some evt)
      match evtE with
      | Except.error e => (s, [], some e)
      | Except.ok evt2 =>
        let pFiles := updateK s.pFiles fullName (fun st => { st with stat := nstat })
        let s := { s with pFiles := pFiles }
        match evt2 with
        | none => (s, [], none)
        | some e => (s, [{ evt := e, name := stub.name, arg := CbArg.stat nstat }], none)

/-- One step of `pCheckFolders`' inner loop over `pFiles` keys: re-feed a
synthetic `rename` for a watched path lying under `dir`. -/
def checkFileStep (fs : FsT) (dir : String)
    (acc : State × List Event × Option String) (fullName : String) :
    State × List Event × Option String :=
  match acc with
  | (s, evs, some e) => (s, evs, some e)
  | (s, evs, none) =>
    if strStartsWith fullName dir then
      match pHandleChange s fs dir kFileRenameEventName
          (strDrop fullName (strLen dir)) with
      | (s2, evs2, err2) => (s2, evs ++ evs2, err2)
    else (s, evs, none)

/-- One step of `pCheckFolders`' outer loop: when handle-liveness XOR
directory-existence flipped, toggle the native watch and run the inner
loop. -/
def checkDirStep (fs : FsT) (acc : State × List Event × Option String)
    (dir : String) : State × List Event × Option String :=
  match acc with
  | (s, evs, some e) => (s, evs, some e)
  | (s, evs, none) =>
    match lookupK s.pDirs dir with
    | none => (s, evs, none)
    | some stub =>
      let exist := existsSync fs dir
      if Bool.xor stub.handler exist then
        match if exist then pWatchDir s fs dir else pUnwatchDir s dir with
        | (s, some e) => (s, evs, some e)
        | (s, none) =>
          (s.pFiles.map Prod.fst).foldl (checkFileStep fs dir) (s, evs, none)
      else (s, evs, none)

/-- `pCheckFolders` (one reconciliation tick): sweep every group; an
exception unwinds the whole sweep (mutations so far persist). -/
def pCheckFolders (s : State) (fs : FsT) : State × List Event × Option String :=
  (s.pDirs.map Prod.fst).foldl (checkDirStep fs) (s, [], none)

/-- One step of `reset`'s loop: close the group's handle. -/
def resetStep (acc : State × Option String) (kv : String × DirStub) :
    State × Option String :=
  match acc with
  | (s, some e) => (s, some e)
  | (s, none) => pUnwatchDir s kv.1

/-- `reset()`: close every group's handle, then clear both maps. -/
def reset (s : State) : State × Option String :=
  match s.pDirs.foldl resetStep (s, none) with
  | (s, some e) => (s, some e)
  | (s, none) => ({ s with pFiles := [], pDirs := [] }, none)

/-- `save()`: `$valueCopy(this.pFiles)` — a deep copy; on immutable model
values the copy is the map itself. -/
def save (s : State) : List (String × FileStub) := s.pFiles

/-- One step of `restore`'s loop over the snapshot entries: re-`watch` the
path, compare the snapshot stat against the freshly probed one (existence
XOR, then fingerprint-or-mtime depending on `validate`), and invoke the
callback with `(evt, fullName, nstat.crc32)` — note the third argument is
the crc32 property, and dereferencing it on a `null` new stat (the `remove`
case) throws. In the `validate = false` branch the source tests
`nstat.mtime != stat.mtime`: `nstat.mtime` is a fresh `Date` from
`statSync` and `stat.mtime` is the snapshot's copied `Date` — two distinct
objects, and JS `!=` between two objects is reference inequality, so the
test is ALWAYS true when both stats exist and a `change` fires for every
surviving file, even on an unchanged filesystem. -/
def restoreStep (fs : FsT) (acc : State × List Event × Option String)
    (kv : String × FileStub) : State × List Event × Option String :=
  match acc with
  | (s, evs, some e) => (s, evs, some e)
  | (s, evs, none) =>
    let fullName := kv.1
    match watch s fs fullName with
    | (s, some e) => (s, evs, some e)
    | (s, none) =>
      let stat := kv.2.stat
      match lookupK s.pFiles fullName with
      | none => (s, evs, some "TypeError: cannot read stat of undefined")
      | some stub =>
        let nstat := stub.stat
        let evt : Option String :=
          if Bool.xor stat.isSome nstat.isSome then
            if nstat.isSome then some kFileCreateEventName
            else some kFileRemoveEventName
          else
            match nstat, stat with
            | some n, some o =>
              if s.pOptions.validate then
                if n.size ≠ o.size ∨ n.crc32 ≠ o.crc32 then
                  some kFileChangeEventName
                else none
              else
                -- `nstat.mtime != stat.mtime`: reference inequality of two
                -- distinct Date objects, always true here.
                some kFileChangeEventName
            | _, _ => none
        match evt with
        | none => (s, evs, none)
        | some e =>
          match nstat with
          | none => (s, evs, some "TypeError: cannot read crc32 of null")
          | some n =>
            (s, evs ++ [{ evt := e, name := fullName, arg := CbArg.crc n.crc32 }],
             none)

/-- `restore(files)`: `reset()`, then run `restoreStep` on each snapshot
entry in order (an exception unwinds the loop). -/
def restore (s : State) (fs : FsT) (files : List (String × FileStub)) :
    State × List Event × Option String :=
  match reset s with
  | (s, some e) => (s, [], some e)
  | (s, none) => files.foldl (restoreStep fs) (s, [], none)

/-- Spec-side driver for temporal claims: run one reconciliation tick per
filesystem snapshot in the list, accumulating the emitted events (a throw
aborts the run, as it would kill the interval callback). -/
def runTicks (s : State) : List FsT → State × List Event × Option String
  | [] => (s, [], none)
  | fs :: rest =>
    match pCheckFolders s fs with
    | (s1, evs, some e) => (s1, evs, some e)
    | (s1, evs, none) =>
      match runTicks s1 rest with
      | (s2, evs2, err) => (s2, evs ++ evs2, err)

end V0

/-! ## V1 — `src/unnamed/part_000` (watcher with directory targets) -/

namespace V1

/-- The watcher instance state; the group map is named `pWatchers` in this
version. `pTimer` records whether the constructor installed the interval
timer (it only does when `interval > 0`). -/
structure State where
  pFiles : List (String × FileStub)
  pWatchers : List (String × DirStub)
  pOptions : Opts
  pTimer : Bool
deriving DecidableEq, Repr

/-- The `FileWatcher` constructor: empty maps, `$extend`ed options, and the
interval timer only when `interval > 0`. -/
def mkFileWatcher (opts : Opts) : State :=
  { pFiles := [], pWatchers := [], pOptions := opts,
    pTimer := if 0 < opts.interval then true else false }

/-- `pGetFileStat`: `null` for a missing path, else `statSync`; the crc32
fingerprint is only attached when `validate` is on AND `stat.isFile()` —
directories are never read, so this version never throws. -/
def pGetFileStat (validate : Bool) (fs : FsT) (file : String) : Option Stat :=
  match fsGet fs file with
  | none => none
  | some (Entry.file sz mt c) =>
    some { size := sz, mtime := mt, isDir := false,
           crc32 := if validate then some c else none }
  | some (Entry.dir sz mt) =>
    some { size := sz, mtime := mt, isDir := true, crc32 := none }

/-- `pWatchDir`, as in V0 but over `pWatchers`. -/
def pWatchDir (s : State) (fs : FsT) (dir : String) : State × Option String :=
  match lookupK s.pWatchers dir with
  | none => (s, some "TypeError: cannot read handler of undefined")
  | some stub =>
    if stub.handler || !existsSync fs dir then (s, none)
    else
      let pWatchers := updateK s.pWatchers dir (fun st => { st with handler := true })
      ({ s with pWatchers := pWatchers }, none)

/-- `pUnwatchDir`, as in V0 but over `pWatchers`. -/
def pUnwatchDir (s : State) (dir : String) : State × Option String :=
  match lookupK s.pWatchers dir with
  | none => (s, some "TypeError: cannot read handler of undefined")
  | some stub =>
    if stub.handler then
      let pWatchers := updateK s.pWatchers dir (fun st => { st with handler := false })
      ({ s with pWatchers := pWatchers }, none)
    else (s, none)

/-- The group-management tail of `watch`: create the group stub if absent
(and open its native watch), then either set `watchDir` (directory target)
or bump `count` (file target). -/
def watchGroups (s : State) (fs : FsT) (dir : String) (watchDir : Bool) :
    State × Option String :=
  let r :=
    if (lookupK s.pWatchers dir).isSome then (s, none)
    else
      let pWatchers := insertKV s.pWatchers dir
        { handler := false, count := 0, watchDir := false }
      pWatchDir { s with pWatchers := pWatchers } fs dir
  match r with
  | (s, some e) => (s, some e)
  | (s, none) =>
    if watchDir then
      let pWatchers := updateK s.pWatchers dir (fun st => { st with watchDir := true })
      ({ s with pWatchers := pWatchers }, none)
    else
      let pWatchers := updateK s.pWatchers dir (fun st => { st with count := st.count + 1 })
      ({ s with pWatchers := pWatchers }, none)

/-- `watch(file)`: no-op when already present; otherwise record the stub and
then branch on `stub.stat.isDirectory()` — calling it on a `null` stat for an
absent path throws, AFTER the `pFiles` assignment has already happened. For a
directory target the group key is the path itself and `watchDir` is set; for
a file target the key is `dirname(path) + "/"` and `count` is bumped. -/
def watch (s : State) (fs : FsT) (file : String) : State × Option String :=
  let fullName := resolve file
  match lookupK s.pFiles fullName with
  | some _ => (s, none)
  | none =>
    let st := pGetFileStat s.pOptions.validate fs fullName
    let stub : FileStub :=
      { name := if s.pOptions.fullName then fullName else file, stat := st }
    let s := { s with pFiles := insertKV s.pFiles fullName stub }
    match st with
    | none => (s, some "TypeError: cannot call isDirectory of null")
    | some st1 =>
      watchGroups s fs (if st1.isDir then fullName else dirname fullName ++ "/")
        st1.isDir

/-- The stub-selection phase of `unwatch`: for a directory target
(`fullName in this.pWatchers`) clear `watchDir`; otherwise decrement the
owning `dirname + "/"` group's `count` — whose stub may be missing
(`undefined`), in which case `stub.count--` throws (`none` here). Returns
the updated state together with the mutated stub the source's local `stub`
refers to. -/
def unwatchSelect (s : State) (fullName : String) : Option (State × DirStub) :=
  match lookupK s.pWatchers fullName with
  | some stub0 =>
    let stub := { stub0 with watchDir := false }
    some ({ s with pWatchers := updateK s.pWatchers fullName (fun _ => stub) }, stub)
  | none =>
    match lookupK s.pWatchers (dirname fullName ++ "/") with
    | none => none
    | some stub0 =>
      let stub := { stub0 with count := stub0.count - 1 }
      let pWatchers := updateK s.pWatchers (dirname fullName ++ "/") (fun _ => stub)
      some ({ s with pWatchers := pWatchers }, stub)

/-- `unwatch(file)`: no-op when not watched; otherwise delete the entry and
run the stub selection. When the selected stub reaches
`count == 0 && !watchDir`, the source calls `this.pUnwatchDir(dir)` — but
its local `dir` is never assigned (a bug), so the lookup uses the JS
property key `"undefined"`, which is absent, and `pUnwatchDir` throws; the
`delete this.pWatchers[dir]` line is never reached. -/
def unwatch (s : State) (file : String) : State × Option String :=
  let fullName := resolve file
  match lookupK s.pFiles fullName with
  | none => (s, none)
  | some _ =>
    let s := { s with pFiles := eraseK s.pFiles fullName }
    match unwatchSelect s fullName with
    | none => (s, some "TypeError: cannot read count of undefined")
    | some (s, stub) =>
      if stub.count = 0 ∧ !stub.watchDir then
        pUnwatchDir s "undefined"
      else (s, none)

/-- `pCheckFileExistenceChange`, identical to V0's. -/
def pCheckFileExistenceChange (s : State) (fullName : String)
    (nstat : Option Stat) : Option String :=
  match lookupK s.pFiles fullName with
  | none => none
  | some stub =>
    if Bool.xor stub.stat.isSome nstat.isSome then
      if nstat.isSome then some kFileCreateEventName
      else some kFileRemoveEventName
    else none

/-- `pHandleChange(dir, evt, file)`: the watched-file branch is identical to
V0's; otherwise, when the emitting group has `watchDir` set, the raw event is
forwarded as `pCallback(evt, fullName)` with no third argument (reading
`.watchDir` of a missing group stub would throw). -/
def pHandleChange (s : State) (fs : FsT) (dir evt fileName : String) :
    State × List Event × Option String :=
  let fullName := dir ++ fileName
  match lookupK s.pFiles fullName with
  | some stub =>
    let nstat := pGetFileStat s.pOptions.validate fs fullName
    let evtE : Except String (Option String) :=
      if evt = kFileRenameEventName then
        Except.ok (some ((pCheckFileExistenceChange s fullName nstat).getD evt))
      else if evt = kFileChangeEventName ∧ s.pOptions.validate then
        match nstat, stub.stat with
        | some n, some o =>
          if n.size = o.size ∧ n.crc32 = o.crc32 then Except.ok none
          else Except.ok (some evt)
        | _, _ => Except.error "TypeError: cannot read size of null"
      else Except.ok (some evt)
    match evtE with
    | Except.error e => (s, [], some e)
    | Except.ok evt2 =>
      let pFiles := updateK s.pFiles fullName (fun st => { st with stat := nstat })
      let s := { s with pFiles := pFiles }
      match evt2 with
      | none => (s, [], none)
      | some e => (s, [{ evt := e, name := stub.name, arg := CbArg.stat nstat }], none)
  | none =>
    match lookupK s.pWatchers dir with
    | none => (s, [], some "TypeError: cannot read watchDir of undefined")
    | some stub =>
      if stub.watchDir then
        (s, [{ evt := evt, name := fullName, arg := CbArg.undef }], none)
      else (s, [], none)

/-- `getFileStat(file)`: the public cached-stat reader — `undefined` when the
path is not watched, else the stored stat (no I/O). -/
def getFileStat (s : State) (file : String) : Option (Option Stat) :=
  match lookupK s.pFiles (resolve file) with
  | none => none
  | some stub => some stub.stat

/-- One step of `pCheckFolders`' inner loop over `pFiles` keys. -/
def checkFileStep (fs : FsT) (dir : String)
    (acc : State × List Event × Option String) (fullName : String) :
    State × List Event × Option String :=
  match acc with
  | (s, evs, some e) => (s, evs, some e)
  | (s, evs, none) =>
    if strStartsWith fullName dir then
      match pHandleChange s fs dir kFileRenameEventName
          (strDrop fullName (strLen dir)) with
      | (s2, evs2, err2) => (s2, evs ++ evs2, err2)
    else (s, evs, none)

/-- One step of `pCheckFolders`' outer loop over `pWatchers` keys. -/
def checkDirStep (fs : FsT) (acc : State × List Event × Option String)
    (dir : String) : State × List Event × Option String :=
  match acc with
  | (s, evs, some e) => (s, evs, some e)
  | (s, evs, none) =>
    match lookupK s.pWatchers dir with
    | none => (s, evs, none)
    | some stub =>
      let exist := existsSync fs dir
      if Bool.xor stub.handler exist then
        match if exist then pWatchDir s fs dir else pUnwatchDir s dir with
        | (s, some e) => (s, evs, some e)
        | (s, none) =>
          (s.pFiles.map Prod.fst).foldl (checkFileStep fs dir) (s, evs, none)
      else (s, evs, none)

/-- `pCheckFolders` (one reconciliation tick), as in V0 over `pWatchers`. -/
def pCheckFolders (s : State) (fs : FsT) : State × List Event × Option String :=
  (s.pWatchers.map Prod.fst).foldl (checkDirStep fs) (s, [], none)

/-- One step of `reset`'s loop: close the group's handle. -/
def resetStep (acc : State × Option String) (kv : String × DirStub) :
    State × Option String :=
  match acc with
  | (s, some e) => (s, some e)
  | (s, none) => pUnwatchDir s kv.1

/-- `reset()`: close every group's handle, then clear both maps. -/
def reset (s : State) : State × Option String :=
  match s.pWatchers.foldl resetStep (s, none) with
  | (s, some e) => (s, some e)
  | (s, none) => ({ s with pFiles := [], pWatchers := [] }, none)

/-- `save()`: a deep copy of `pFiles`. -/
def save (s : State) : List (String × FileStub) := s.pFiles

/-- One step of `restore`'s loop, textually the same as V0's — including the
`validate = false` branch's `nstat.mtime != stat.mtime`, a reference
inequality of two distinct Date objects that is always true when both stats
exist — but `watch` here throws on an absent path (so a snapshot entry
whose path no longer exists aborts the restore before the comparison). -/
def restoreStep (fs : FsT) (acc : State × List Event × Option String)
    (kv : String × FileStub) : State × List Event × Option String :=
  match acc with
  | (s, evs, some e) => (s, evs, some e)
  | (s, evs, none) =>
    let fullName := kv.1
    match watch s fs fullName with
    | (s, some e) => (s, evs, some e)
    | (s, none) =>
      let stat := kv.2.stat
      match lookupK s.pFiles fullName with
      | none => (s, evs, some "TypeError: cannot read stat of undefined")
      | some stub =>
        let nstat := stub.stat
        let evt : Option String :=
          if Bool.xor stat.isSome nstat.isSome then
            if nstat.isSome then some kFileCreateEventName
            else some kFileRemoveEventName
          else
            match nstat, stat with
            | some n, some o =>
              if s.pOptions.validate then
                if n.size ≠ o.size ∨ n.crc32 ≠ o.crc32 then
                  some kFileChangeEventName
                else none
              else
                -- `nstat.mtime != stat.mtime`: reference inequality of two
                -- distinct Date objects, always true here.
                some kFileChangeEventName
            | _, _ => none
        match evt with
        | none => (s, evs, none)
        | some e =>
          match nstat with
          | none => (s, evs, some "TypeError: cannot read crc32 of null")
          | some n =>
            (s, evs ++ [{ evt := e, name := fullName, arg := CbArg.crc n.crc32 }],
             none)

/-- `restore(files)`: `reset()`, then run `restoreStep` on each snapshot
entry in order. -/
def restore (s : State) (fs : FsT) (files : List (String × FileStub)) :
    State × List Event × Option String :=
  match reset s with
  | (s, some e) => (s, [], some e)
  | (s, none) => files.foldl (restoreStep fs) (s, [], none)

/-- Spec-side driver for temporal claims: run one reconciliation tick per
filesystem snapshot in the list, accumulating the emitted events. -/
def runTicks (s : State) : List FsT → State × List Event × Option String
  | [] => (s, [], none)
  | fs :: rest =>
    match pCheckFolders s fs with
    | (s1, evs, some e) => (s1, evs, some e)
    | (s1, evs, none) =>
      match runTicks s1 rest with
      | (s2, evs2, err) => (s2, evs ++ evs2, err)

end V1

/-! ## Concrete scenarios shared by the claim theorems -/

/-- A filesystem with directory `/a` holding files `f` (content fingerprint
111) and `g`, and an empty directory `/b`. -/
def fsBase : FsT :=
  [("/a", Entry.dir 10 5), ("/a/f", Entry.file 3 100 111),
   ("/a/g", Entry.file 4 100 112), ("/b", Entry.dir 10 5)]

/-- `fsBase` after `/a/f` is rewritten with different bytes of the same size
(fingerprint 111 → 222, mtime 100 → 200). -/
def fsChangedF : FsT :=
  [("/a", Entry.dir 10 5), ("/a/f", Entry.file 3 200 222),
   ("/a/g", Entry.file 4 100 112), ("/b", Entry.dir 10 5)]

/-- `fsBase` after `/a/f` is deleted. -/
def fsRemovedF : FsT :=
  [("/a", Entry.dir 10 5), ("/a/g", Entry.file 4 100 112), ("/b", Entry.dir 10 5)]

/-- The default options with `validate` switched on. -/
def optsValidate : Opts := { defaultOpts with validate := true }

/-- V0 watcher with `validate = true`, watching `/a/f` and `/a/g`. -/
def w0v : V0.State :=
  (V0.watch (V0.watch (V0.mkFileWatcher optsValidate) fsBase "/a/f").1 fsBase "/a/g").1

/-- V0 watcher with default options (`validate = false`), watching `/a/f`
and `/a/g`. -/
def w0d : V0.State :=
  (V0.watch (V0.watch (V0.mkFileWatcher defaultOpts) fsBase "/a/f").1 fsBase "/a/g").1

/-- V1 watcher with `validate = true`, watching `/a/f` and `/a/g`. -/
def w1v : V1.State :=
  (V1.watch (V1.watch (V1.mkFileWatcher optsValidate) fsBase "/a/f").1 fsBase "/a/g").1

/-- V1 watcher with default options, watching `/a/f` and `/a/g`. -/
def w1d : V1.State :=
  (V1.watch (V1.watch (V1.mkFileWatcher defaultOpts) fsBase "/a/f").1 fsBase "/a/g").1

/-! ## Helper lemmas -/

theorem lookupK_insertKV_self {α : Type} (l : List (String × α)) (k : String) (v : α) :
    lookupK (insertKV l k v) k = some v := by
  induction l with
  | nil => simp [insertKV, lookupK]
  | cons hd t ih =>
    obtain ⟨k', v'⟩ := hd
    by_cases hk : k' = k
    · simp [insertKV, hk, lookupK]
    · simp [insertKV, hk, lookupK, ih]

theorem lookupK_updateK_isSome {α : Type} (l : List (String × α)) (k k' : String)
    (f : α → α) : (lookupK (updateK l k f) k').isSome = (lookupK l k').isSome := by
  induction l with
  | nil => simp [updateK, lookupK]
  | cons hd t ih =>
    obtain ⟨k0, v0⟩ := hd
    simp only [updateK]
    by_cases h0 : k0 = k
    · simp only [if_pos h0]
      by_cases h1 : k0 = k'
      · subst h1; simp [lookupK, h0]
      · have hne : ¬k = k' := fun h => h1 (h0.trans h)
        simp [lookupK, h1, hne]
    · simp only [if_neg h0]
      by_cases h1 : k0 = k'
      · subst h1; simp [lookupK]
      · simp [lookupK, h1, ih]

theorem mem_lookupK_isSome {α : Type} {l : List (String × α)} {kv : String × α}
    (h : kv ∈ l) : (lookupK l kv.1).isSome := by
  induction l with
  | nil => simp at h
  | cons hd t ih =>
    obtain ⟨k0, v0⟩ := hd
    rcases List.mem_cons.mp h with h1 | h1
    · simp [h1, lookupK]
    · by_cases h0 : k0 = kv.1 <;> simp [lookupK, h0, ih h1]

theorem V0.pWatchDir_pFiles (s : V0.State) (fs : FsT) (dir : String) :
    (V0.pWatchDir s fs dir).1.pFiles = s.pFiles := by
  unfold V0.pWatchDir
  split
  · rfl
  · split <;> rfl

theorem V0.pWatchDir_pOptions (s : V0.State) (fs : FsT) (dir : String) :
    (V0.pWatchDir s fs dir).1.pOptions = s.pOptions := by
  unfold V0.pWatchDir
  split
  · rfl
  · split <;> rfl

theorem V0.pWatchDir_pTimer (s : V0.State) (fs : FsT) (dir : String) :
    (V0.pWatchDir s fs dir).1.pTimer = s.pTimer := by
  unfold V0.pWatchDir
  split
  · rfl
  · split <;> rfl

theorem V0.pWatchDir_ok (s : V0.State) (fs : FsT) (dir : String)
    (h : (lookupK s.pDirs dir).isSome) : (V0.pWatchDir s fs dir).2 = none := by
  unfold V0.pWatchDir
  split
  · simp_all
  · split <;> rfl

theorem V0.pUnwatchDir_pFiles (s : V0.State) (dir : String) :
    (V0.pUnwatchDir s dir).1.pFiles = s.pFiles := by
  unfold V0.pUnwatchDir
  split
  · rfl
  · split <;> rfl

theorem V0.pUnwatchDir_pOptions (s : V0.State) (dir : String) :
    (V0.pUnwatchDir s dir).1.pOptions = s.pOptions := by
  unfold V0.pUnwatchDir
  split
  · rfl
  · split <;> rfl

theorem V0.pUnwatchDir_pTimer (s : V0.State) (dir : String) :
    (V0.pUnwatchDir s dir).1.pTimer = s.pTimer := by
  unfold V0.pUnwatchDir
  split
  · rfl
  · split <;> rfl

theorem V0.pUnwatchDir_ok (s : V0.State) (dir : String)
    (h : (lookupK s.pDirs dir).isSome) : (V0.pUnwatchDir s dir).2 = none := by
  unfold V0.pUnwatchDir
  split
  · simp_all
  · split <;> rfl

theorem V0.pUnwatchDir_lookup (s : V0.State) (dir k : String) :
    (lookupK (V0.pUnwatchDir s dir).1.pDirs k).isSome =
      (lookupK s.pDirs k).isSome := by
  unfold V0.pUnwatchDir
  split
  · rfl
  · split
    · simp [lookupK_updateK_isSome]
    · rfl

theorem V0.watchGroups_pFiles (s : V0.State) (fs : FsT) (dir : String) :
    (V0.watchGroups s fs dir).1.pFiles = s.pFiles := by
  unfold V0.watchGroups
  dsimp only
  by_cases h : (lookupK s.pDirs dir).isSome
  · rw [if_pos h]
  · rw [if_neg h]
    split
    · next s' e heq =>
      have := V0.pWatchDir_pFiles
        { s with pDirs := insertKV s.pDirs dir { handler := false, count := 0, watchDir := false } } fs dir
      rw [heq] at this
      exact this
    · next s' heq =>
      have := V0.pWatchDir_pFiles
        { s with pDirs := insertKV s.pDirs dir { handler := false, count := 0, watchDir := false } } fs dir
      rw [heq] at this
      exact this

theorem V0.watchGroups_pOptions (s : V0.State) (fs : FsT) (dir : String) :
    (V0.watchGroups s fs dir).1.pOptions = s.pOptions := by
  unfold V0.watchGroups
  dsimp only
  by_cases h : (lookupK s.pDirs dir).isSome
  · rw [if_pos h]
  · rw [if_neg h]
    split
    · next s' e heq =>
      have := V0.pWatchDir_pOptions
        { s with pDirs := insertKV s.pDirs dir { handler := false, count := 0, watchDir := false } } fs dir
      rw [heq] at this
      exact this
    · next s' heq =>
      have := V0.pWatchDir_pOptions
        { s with pDirs := insertKV s.pDirs dir { handler := false, count := 0, watchDir := false } } fs dir
      rw [heq] at this
      exact this

theorem V0.watchGroups_pTimer (s : V0.State) (fs : FsT) (dir : String) :
    (V0.watchGroups s fs dir).1.pTimer = s.pTimer := by
  unfold V0.watchGroups
  dsimp only
  by_cases h : (lookupK s.pDirs dir).isSome
  · rw [if_pos h]
  · rw [if_neg h]
    split
    · next s' e heq =>
      have := V0.pWatchDir_pTimer
        { s with pDirs := insertKV s.pDirs dir { handler := false, count := 0, watchDir := false } } fs dir
      rw [heq] at this
      exact this
    · next s' heq =>
      have := V0.pWatchDir_pTimer
        { s with pDirs := insertKV s.pDirs dir { handler := false, count := 0, watchDir := false } } fs dir
      rw [heq] at this
      exact this

theorem V0.watchGroups_ok (s : V0.State) (fs : FsT) (dir : String) :
    (V0.watchGroups s fs dir).2 = none := by
  unfold V0.watchGroups
  dsimp only
  by_cases h : (lookupK s.pDirs dir).isSome
  · rw [if_pos h]
  · rw [if_neg h]
    split
    · next s' e heq =>
      have hok := V0.pWatchDir_ok
        { s with pDirs := insertKV s.pDirs dir { handler := false, count := 0, watchDir := false } } fs dir
        (by simp [lookupK_insertKV_self])
      rw [heq] at hok
      simp at hok
    · next s' heq => rfl

theorem V0.watch_present (s : V0.State) (fs : FsT) (p : String)
    (h : (lookupK s.pFiles (resolve p)).isSome) : V0.watch s fs p = (s, none) := by
  obtain ⟨stub, hl⟩ := Option.isSome_iff_exists.mp h
  unfold V0.watch
  dsimp only
  rw [hl]

theorem V0.watch_of_err (s : V0.State) (fs : FsT) (p : String) (e : String)
    (hl : lookupK s.pFiles (resolve p) = none)
    (hp : V0.pGetFileStat s.pOptions.validate fs (resolve p) = Except.error e) :
    V0.watch s fs p = (s, some e) := by
  unfold V0.watch
  dsimp only
  rw [hl, hp]

theorem V0.watch_of_ok (s : V0.State) (fs : FsT) (p : String) (st : Option Stat)
    (hl : lookupK s.pFiles (resolve p) = none)
    (hp : V0.pGetFileStat s.pOptions.validate fs (resolve p) = Except.ok st) :
    V0.watch s fs p =
      V0.watchGroups
        { s with pFiles := insertKV s.pFiles (resolve p) ⟨if s.pOptions.fullName then resolve p else p, st⟩ }
        fs (dirname (resolve p) ++ "/") := by
  unfold V0.watch
  dsimp only
  rw [hl, hp]

theorem V0.watch_pair (s : V0.State) (fs : FsT) (p : String) :
    ((V0.watch s fs p).2 = none →
      V0.watch (V0.watch s fs p).1 fs p = ((V0.watch s fs p).1, none)) ∧
    (V0.watch (V0.watch s fs p).1 fs p).1 = (V0.watch s fs p).1 := by
  cases hl : lookupK s.pFiles (resolve p) with
  | some stub =>
    have h1 := V0.watch_present s fs p (by rw [hl]; rfl)
    rw [h1]
    exact ⟨fun _ => h1, by rw [h1]⟩
  | none =>
    cases hp : V0.pGetFileStat s.pOptions.validate fs (resolve p) with
    | error e =>
      have h1 := V0.watch_of_err s fs p e hl hp
      rw [h1]
      refine ⟨fun hno => by simp at hno, ?_⟩
      rw [h1]
    | ok st =>
      have h1 := V0.watch_of_ok s fs p st hl hp
      have hmem : (lookupK (V0.watch s fs p).1.pFiles (resolve p)).isSome := by
        rw [h1, V0.watchGroups_pFiles]
        simp [lookupK_insertKV_self]
      have h2 := V0.watch_present (V0.watch s fs p).1 fs p hmem
      rw [h2]
      exact ⟨fun _ => rfl, rfl⟩

theorem V1.pWatchDir_pFiles1 (s : V1.State) (fs : FsT) (dir : String) :
    (V1.pWatchDir s fs dir).1.pFiles = s.pFiles := by
  unfold V1.pWatchDir
  split
  · rfl
  · split <;> rfl

theorem V1.pWatchDir_pOptions1 (s : V1.State) (fs : FsT) (dir : String) :
    (V1.pWatchDir s fs dir).1.pOptions = s.pOptions := by
  unfold V1.pWatchDir
  split
  · rfl
  · split <;> rfl

theorem V1.pWatchDir_pTimer1 (s : V1.State) (fs : FsT) (dir : String) :
    (V1.pWatchDir s fs dir).1.pTimer = s.pTimer := by
  unfold V1.pWatchDir
  split
  · rfl
  · split <;> rfl

theorem V1.pWatchDir_ok1 (s : V1.State) (fs : FsT) (dir : String)
    (h : (lookupK s.pWatchers dir).isSome) : (V1.pWatchDir s fs dir).2 = none := by
  unfold V1.pWatchDir
  split
  · simp_all
  · split <;> rfl

theorem V1.pUnwatchDir_pFiles1 (s : V1.State) (dir : String) :
    (V1.pUnwatchDir s dir).1.pFiles = s.pFiles := by
  unfold V1.pUnwatchDir
  split
  · rfl
  · split <;> rfl

theorem V1.pUnwatchDir_pOptions1 (s : V1.State) (dir : String) :
    (V1.pUnwatchDir s dir).1.pOptions = s.pOptions := by
  unfold V1.pUnwatchDir
  split
  · rfl
  · split <;> rfl

theorem V1.pUnwatchDir_pTimer1 (s : V1.State) (dir : String) :
    (V1.pUnwatchDir s dir).1.pTimer = s.pTimer := by
  unfold V1.pUnwatchDir
  split
  · rfl
  · split <;> rfl

theorem V1.pUnwatchDir_ok1 (s : V1.State) (dir : String)
    (h : (lookupK s.pWatchers dir).isSome) : (V1.pUnwatchDir s dir).2 = none := by
  unfold V1.pUnwatchDir
  split
  · simp_all
  · split <;> rfl

theorem V1.pUnwatchDir_lookup1 (s : V1.State) (dir k : String) :
    (lookupK (V1.pUnwatchDir s dir).1.pWatchers k).isSome =
      (lookupK s.pWatchers k).isSome := by
  unfold V1.pUnwatchDir
  split
  · rfl
  · split
    · simp [lookupK_updateK_isSome]
    · rfl

theorem V1.watchGroups_pFiles1 (s : V1.State) (fs : FsT) (dir : String) (wd : Bool) :
    (V1.watchGroups s fs dir wd).1.pFiles = s.pFiles := by
  unfold V1.watchGroups
  dsimp only
  by_cases h : (lookupK s.pWatchers dir).isSome
  · rw [if_pos h]
    dsimp only
    split <;> rfl
  · rw [if_neg h]
    split
    · next s' e heq =>
      have := V1.pWatchDir_pFiles1
        { s with pWatchers := insertKV s.pWatchers dir { handler := false, count := 0, watchDir := false } } fs dir
      rw [heq] at this
      exact this
    · next s' heq =>
      have hf := V1.pWatchDir_pFiles1
        { s with pWatchers := insertKV s.pWatchers dir { handler := false, count := 0, watchDir := false } } fs dir
      rw [heq] at hf
      split <;> exact hf

theorem V1.watchGroups_pOptions1 (s : V1.State) (fs : FsT) (dir : String) (wd : Bool) :
    (V1.watchGroups s fs dir wd).1.pOptions = s.pOptions := by
  unfold V1.watchGroups
  dsimp only
  by_cases h : (lookupK s.pWatchers dir).isSome
  · rw [if_pos h]
    dsimp only
    split <;> rfl
  · rw [if_neg h]
    split
    · next s' e heq =>
      have := V1.pWatchDir_pOptions1
        { s with pWatchers := insertKV s.pWatchers dir { handler := false, count := 0, watchDir := false } } fs dir
      rw [heq] at this
      exact this
    · next s' heq =>
      have hf := V1.pWatchDir_pOptions1
        { s with pWatchers := insertKV s.pWatchers dir { handler := false, count := 0, watchDir := false } } fs dir
      rw [heq] at hf
      split <;> exact hf

theorem V1.watchGroups_pTimer1 (s : V1.State) (fs : FsT) (dir : String) (wd : Bool) :
    (V1.watchGroups s fs dir wd).1.pTimer = s.pTimer := by
  unfold V1.watchGroups
  dsimp only
  by_cases h : (lookupK s.pWatchers dir).isSome
  · rw [if_pos h]
    dsimp only
    split <;> rfl
  · rw [if_neg h]
    split
    · next s' e heq =>
      have := V1.pWatchDir_pTimer1
        { s with pWatchers := insertKV s.pWatchers dir { handler := false, count := 0, watchDir := false } } fs dir
      rw [heq] at this
      exact this
    · next s' heq =>
      have hf := V1.pWatchDir_pTimer1
        { s with pWatchers := insertKV s.pWatchers dir { handler := false, count := 0, watchDir := false } } fs dir
      rw [heq] at hf
      split <;> exact hf

theorem V1.watchGroups_ok1 (s : V1.State) (fs : FsT) (dir : String) (wd : Bool) :
    (V1.watchGroups s fs dir wd).2 = none := by
  unfold V1.watchGroups
  dsimp only
  by_cases h : (lookupK s.pWatchers dir).isSome
  · rw [if_pos h]
    dsimp only
    split <;> rfl
  · rw [if_neg h]
    split
    · next s' e heq =>
      have hok := V1.pWatchDir_ok1
        { s with pWatchers := insertKV s.pWatchers dir { handler := false, count := 0, watchDir := false } } fs dir
        (by simp [lookupK_insertKV_self])
      rw [heq] at hok
      simp at hok
    · next s' heq =>
      split <;> rfl

theorem V1.watch_present1 (s : V1.State) (fs : FsT) (p : String)
    (h : (lookupK s.pFiles (resolve p)).isSome) : V1.watch s fs p = (s, none) := by
  obtain ⟨stub, hl⟩ := Option.isSome_iff_exists.mp h
  unfold V1.watch
  dsimp only
  rw [hl]

theorem V1.watch_mem (s : V1.State) (fs : FsT) (p : String) :
    (lookupK (V1.watch s fs p).1.pFiles (resolve p)).isSome := by
  cases hl : lookupK s.pFiles (resolve p) with
  | some stub =>
    rw [V1.watch_present1 s fs p (by rw [hl]; rfl)]
    rw [hl]
    rfl
  | none =>
    unfold V1.watch
    dsimp only
    rw [hl]
    cases hp : V1.pGetFileStat s.pOptions.validate fs (resolve p) with
    | none => simp [lookupK_insertKV_self]
    | some st1 =>
      dsimp only
      rw [V1.watchGroups_pFiles1]
      simp [lookupK_insertKV_self]

theorem V1.watch_pair1 (s : V1.State) (fs : FsT) (p : String) :
    V1.watch (V1.watch s fs p).1 fs p = ((V1.watch s fs p).1, none) :=
  V1.watch_present1 (V1.watch s fs p).1 fs p (V1.watch_mem s fs p)

theorem V0.handleChange_validate (s : V0.State) (fs : FsT) (dir fn : String)
    (stub : FileStub) (o n : Stat)
    (hv : s.pOptions.validate = true)
    (hf : lookupK s.pFiles (dir ++ fn) = some stub)
    (ho : stub.stat = some o)
    (hp : V0.pGetFileStat s.pOptions.validate fs (dir ++ fn) = Except.ok (some n))
    (hsz : n.size = o.size) :
    (n.crc32 = o.crc32 →
      V0.pHandleChange s fs dir kFileChangeEventName fn =
        ({ s with pFiles := updateK s.pFiles (dir ++ fn) (fun st => { st with stat := some n }) }, [], none)) ∧
    (n.crc32 ≠ o.crc32 →
      V0.pHandleChange s fs dir kFileChangeEventName fn =
        ({ s with pFiles := updateK s.pFiles (dir ++ fn) (fun st => { st with stat := some n }) },
         [{ evt := kFileChangeEventName, name := stub.name, arg := CbArg.stat (some n) }], none)) := by
  constructor
  · intro hcrc
    simp only [V0.pHandleChange, hf, hp, ho]
    simp [kFileChangeEventName, kFileRenameEventName, hv, hsz, hcrc]
  · intro hcrc
    simp only [V0.pHandleChange, hf, hp, ho]
    simp [kFileChangeEventName, kFileRenameEventName, hv, hsz, hcrc]

theorem V0.resetFold (l : List (String × DirStub)) (s : V0.State)
    (hpres : ∀ kv ∈ l, (lookupK s.pDirs kv.1).isSome) :
    (l.foldl V0.resetStep (s, none)).2 = none ∧
    (l.foldl V0.resetStep (s, none)).1.pFiles = s.pFiles ∧
    (l.foldl V0.resetStep (s, none)).1.pOptions = s.pOptions ∧
    (l.foldl V0.resetStep (s, none)).1.pTimer = s.pTimer := by
  induction l generalizing s with
  | nil => simp
  | cons kv t ih =>
    have h0 : (lookupK s.pDirs kv.1).isSome := hpres kv (List.mem_cons_self kv t)
    have hok := V0.pUnwatchDir_ok s kv.1 h0
    have hstep : V0.resetStep (s, none) kv = ((V0.pUnwatchDir s kv.1).1, none) := by
      unfold V0.resetStep
      dsimp only
      rw [show V0.pUnwatchDir s kv.1 = ((V0.pUnwatchDir s kv.1).1, (V0.pUnwatchDir s kv.1).2) from rfl, hok]
    have hpres2 : ∀ kv2 ∈ t, (lookupK (V0.pUnwatchDir s kv.1).1.pDirs kv2.1).isSome := by
      intro kv2 hm
      rw [V0.pUnwatchDir_lookup]
      exact hpres kv2 (List.mem_cons_of_mem kv hm)
    have := ih (V0.pUnwatchDir s kv.1).1 hpres2
    simp only [List.foldl_cons, hstep]
    exact ⟨this.1,
      this.2.1.trans (V0.pUnwatchDir_pFiles s kv.1),
      this.2.2.1.trans (V0.pUnwatchDir_pOptions s kv.1),
      this.2.2.2.trans (V0.pUnwatchDir_pTimer s kv.1)⟩

theorem V0.reset_eq (s : V0.State) :
    V0.reset s = ({ s with pFiles := [], pDirs := [] }, none) := by
  obtain ⟨h2, hf, ho, ht⟩ := V0.resetFold s.pDirs s (fun kv hm => mem_lookupK_isSome hm)
  unfold V0.reset
  rcases hr : s.pDirs.foldl V0.resetStep (s, none) with ⟨s', err⟩
  rw [hr] at h2 hf ho ht
  dsimp at h2 hf ho ht
  subst h2
  dsimp only
  rw [Prod.mk.injEq]
  refine ⟨?_, rfl⟩
  cases s'
  cases s
  simp_all

theorem V0.pCheckFolders_of_empty (s : V0.State) (h : s.pDirs = []) (fs : FsT) :
    V0.pCheckFolders s fs = (s, [], none) := by
  unfold V0.pCheckFolders
  rw [h]
  rfl

theorem V0.runTicks_of_empty (s : V0.State) (h : s.pDirs = []) (fss : List FsT) :
    V0.runTicks s fss = (s, [], none) := by
  induction fss with
  | nil => rfl
  | cons fs rest ih =>
    unfold V0.runTicks
    rw [V0.pCheckFolders_of_empty s h fs]
    dsimp only
    rw [ih]
    simp

theorem V1.resetFold1 (l : List (String × DirStub)) (s : V1.State)
    (hpres : ∀ kv ∈ l, (lookupK s.pWatchers kv.1).isSome) :
    (l.foldl V1.resetStep (s, none)).2 = none ∧
    (l.foldl V1.resetStep (s, none)).1.pFiles = s.pFiles ∧
    (l.foldl V1.resetStep (s, none)).1.pOptions = s.pOptions ∧
    (l.foldl V1.resetStep (s, none)).1.pTimer = s.pTimer := by
  induction l generalizing s with
  | nil => simp
  | cons kv t ih =>
    have h0 : (lookupK s.pWatchers kv.1).isSome := hpres kv (List.mem_cons_self kv t)
    have hok := V1.pUnwatchDir_ok1 s kv.1 h0
    have hstep : V1.resetStep (s, none) kv = ((V1.pUnwatchDir s kv.1).1, none) := by
      unfold V1.resetStep
      dsimp only
      rw [show V1.pUnwatchDir s kv.1 = ((V1.pUnwatchDir s kv.1).1, (V1.pUnwatchDir s kv.1).2) from rfl, hok]
    have hpres2 : ∀ kv2 ∈ t, (lookupK (V1.pUnwatchDir s kv.1).1.pWatchers kv2.1).isSome := by
      intro kv2 hm
      rw [V1.pUnwatchDir_lookup1]
      exact hpres kv2 (List.mem_cons_of_mem kv hm)
    have := ih (V1.pUnwatchDir s kv.1).1 hpres2
    simp only [List.foldl_cons, hstep]
    exact ⟨this.1,
      this.2.1.trans (V1.pUnwatchDir_pFiles1 s kv.1),
      this.2.2.1.trans (V1.pUnwatchDir_pOptions1 s kv.1),
      this.2.2.2.trans (V1.pUnwatchDir_pTimer1 s kv.1)⟩

theorem V1.reset_eq1 (s : V1.State) :
    V1.reset s = ({ s with pFiles := [], pWatchers := [] }, none) := by
  obtain ⟨h2, hf, ho, ht⟩ := V1.resetFold1 s.pWatchers s (fun kv hm => mem_lookupK_isSome hm)
  unfold V1.reset
  rcases hr : s.pWatchers.foldl V1.resetStep (s, none) with ⟨s', err⟩
  rw [hr] at h2 hf ho ht
  dsimp at h2 hf ho ht
  subst h2
  dsimp only
  rw [Prod.mk.injEq]
  refine ⟨?_, rfl⟩
  cases s'
  cases s
  simp_all

theorem V1.pCheckFolders_of_empty1 (s : V1.State) (h : s.pWatchers = []) (fs : FsT) :
    V1.pCheckFolders s fs = (s, [], none) := by
  unfold V1.pCheckFolders
  rw [h]
  rfl

theorem V1.runTicks_of_empty1 (s : V1.State) (h : s.pWatchers = []) (fss : List FsT) :
    V1.runTicks s fss = (s, [], none) := by
  induction fss with
  | nil => rfl
  | cons fs rest ih =>
    unfold V1.runTicks
    rw [V1.pCheckFolders_of_empty1 s h fs]
    dsimp only
    rw [ih]
    simp

theorem V0.watch_pTimer (s : V0.State) (fs : FsT) (p : String) :
    (V0.watch s fs p).1.pTimer = s.pTimer := by
  cases hl : lookupK s.pFiles (resolve p) with
  | some stub => rw [V0.watch_present s fs p (by rw [hl]; rfl)]
  | none =>
    cases hp : V0.pGetFileStat s.pOptions.validate fs (resolve p) with
    | error e => rw [V0.watch_of_err s fs p e hl hp]
    | ok st => rw [V0.watch_of_ok s fs p st hl hp, V0.watchGroups_pTimer]

theorem V0.unwatch_pTimer (s : V0.State) (p : String) :
    (V0.unwatch s p).1.pTimer = s.pTimer := by
  unfold V0.unwatch
  dsimp only
  split
  · rfl
  · split
    · rfl
    · split
      · split
        · next s3 e heq =>
          exact (congrArg (fun x => x.1.pTimer) heq).symm.trans
            (V0.pUnwatchDir_pTimer _ _)
        · next s3 heq =>
          exact (congrArg (fun x => x.1.pTimer) heq).symm.trans
            (V0.pUnwatchDir_pTimer _ _)
      · rfl

theorem V0.pHandleChange_pTimer (s : V0.State) (fs : FsT) (dir evt fn : String) :
    (V0.pHandleChange s fs dir evt fn).1.pTimer = s.pTimer := by
  unfold V0.pHandleChange
  dsimp only
  split
  · rfl
  · split
    · rfl
    · split
      · rfl
      · split <;> rfl

theorem V0.checkFileFold_pTimer (fs : FsT) (dir : String) (l : List String)
    (acc : V0.State × List Event × Option String) :
    (l.foldl (V0.checkFileStep fs dir) acc).1.pTimer = acc.1.pTimer := by
  induction l generalizing acc with
  | nil => rfl
  | cons x t ih =>
    rw [List.foldl_cons, ih]
    unfold V0.checkFileStep
    split
    · rfl
    · split
      · split
        next s2 evs2 err2 heq =>
          exact (congrArg (fun x => x.1.pTimer) heq).symm.trans
            (V0.pHandleChange_pTimer _ _ _ _ _)
      · rfl

theorem V0.checkDirStep_pTimer (fs : FsT)
    (acc : V0.State × List Event × Option String) (dir : String) :
    (V0.checkDirStep fs acc dir).1.pTimer = acc.1.pTimer := by
  unfold V0.checkDirStep
  split
  · rfl
  · split
    · rfl
    · dsimp only
      split
      · split
        · next s2 e heq =>
          by_cases hx : existsSync fs dir
          · rw [if_pos hx] at heq
            exact (congrArg (fun x => x.1.pTimer) heq).symm.trans
              (V0.pWatchDir_pTimer _ _ _)
          · rw [if_neg hx] at heq
            exact (congrArg (fun x => x.1.pTimer) heq).symm.trans
              (V0.pUnwatchDir_pTimer _ _)
        · next s2 heq =>
          rw [V0.checkFileFold_pTimer]
          dsimp only
          by_cases hx : existsSync fs dir
          · rw [if_pos hx] at heq
            exact (congrArg (fun x => x.1.pTimer) heq).symm.trans
              (V0.pWatchDir_pTimer _ _ _)
          · rw [if_neg hx] at heq
            exact (congrArg (fun x => x.1.pTimer) heq).symm.trans
              (V0.pUnwatchDir_pTimer _ _)
      · rfl

theorem V0.pCheckFolders_pTimer (s : V0.State) (fs : FsT) :
    (V0.pCheckFolders s fs).1.pTimer = s.pTimer := by
  unfold V0.pCheckFolders
  generalize (s.pDirs.map Prod.fst) = l
  suffices h : ∀ (l : List String) (acc : V0.State × List Event × Option String),
      (l.foldl (V0.checkDirStep fs) acc).1.pTimer = acc.1.pTimer by
    exact h l (s, [], none)
  intro l
  induction l with
  | nil => intro acc; rfl
  | cons x t ih =>
    intro acc
    rw [List.foldl_cons, ih, V0.checkDirStep_pTimer]

theorem V0.restoreFold_pTimer (fs : FsT) (files : List (String × FileStub))
    (acc : V0.State × List Event × Option String) :
    (files.foldl (V0.restoreStep fs) acc).1.pTimer = acc.1.pTimer := by
  induction files generalizing acc with
  | nil => rfl
  | cons kv t ih =>
    rw [List.foldl_cons, ih]
    unfold V0.restoreStep
    split
    · rfl
    · dsimp only
      split
      · next s2 e heq =>
        exact (congrArg (fun x => x.1.pTimer) heq).symm.trans (V0.watch_pTimer _ _ _)
      · next s2 heq =>
        have hw := (congrArg (fun x => x.1.pTimer) heq).symm.trans
          (V0.watch_pTimer _ fs kv.1)
        split
        · exact hw
        · split
          · exact hw
          · split
            · exact hw
            · exact hw

theorem V0.restore_pTimer (s : V0.State) (fs : FsT)
    (snap : List (String × FileStub)) :
    (V0.restore s fs snap).1.pTimer = s.pTimer := by
  unfold V0.restore
  rw [V0.reset_eq]
  dsimp only
  rw [V0.restoreFold_pTimer]

theorem V1.watch_pTimer1 (s : V1.State) (fs : FsT) (p : String) :
    (V1.watch s fs p).1.pTimer = s.pTimer := by
  cases hl : lookupK s.pFiles (resolve p) with
  | some stub => rw [V1.watch_present1 s fs p (by rw [hl]; rfl)]
  | none =>
    unfold V1.watch
    dsimp only
    rw [hl]
    cases hp : V1.pGetFileStat s.pOptions.validate fs (resolve p) with
    | none => rfl
    | some st1 =>
      dsimp only
      rw [V1.watchGroups_pTimer1]

theorem V1.unwatchSelect_pTimer (s : V1.State) (fn : String) (s' : V1.State)
    (stub : DirStub) (h : V1.unwatchSelect s fn = some (s', stub)) :
    s'.pTimer = s.pTimer := by
  unfold V1.unwatchSelect at h
  split at h
  · cases h
    rfl
  · split at h
    · cases h
    · cases h
      rfl

theorem V1.unwatch_pTimer1 (s : V1.State) (p : String) :
    (V1.unwatch s p).1.pTimer = s.pTimer := by
  unfold V1.unwatch
  dsimp only
  split
  · rfl
  · split
    · rfl
    · next s' stub heq =>
      have h1 := V1.unwatchSelect_pTimer _ _ _ _ heq
      split
      · exact (V1.pUnwatchDir_pTimer1 s' "undefined").trans h1
      · exact h1

theorem V1.pHandleChange_pTimer1 (s : V1.State) (fs : FsT) (dir evt fn : String) :
    (V1.pHandleChange s fs dir evt fn).1.pTimer = s.pTimer := by
  unfold V1.pHandleChange
  dsimp only
  split
  · split
    · rfl
    · split <;> rfl
  · split
    · rfl
    · split <;> rfl

theorem V1.checkFileFold_pTimer1 (fs : FsT) (dir : String) (l : List String)
    (acc : V1.State × List Event × Option String) :
    (l.foldl (V1.checkFileStep fs dir) acc).1.pTimer = acc.1.pTimer := by
  induction l generalizing acc with
  | nil => rfl
  | cons x t ih =>
    rw [List.foldl_cons, ih]
    unfold V1.checkFileStep
    split
    · rfl
    · split
      · split
        next s2 evs2 err2 heq =>
          exact (congrArg (fun x => x.1.pTimer) heq).symm.trans
            (V1.pHandleChange_pTimer1 _ _ _ _ _)
      · rfl

theorem V1.checkDirStep_pTimer1 (fs : FsT)
    (acc : V1.State × List Event × Option String) (dir : String) :
    (V1.checkDirStep fs acc dir).1.pTimer = acc.1.pTimer := by
  unfold V1.checkDirStep
  split
  · rfl
  · split
    · rfl
    · dsimp only
      split
      · split
        · next s2 e heq =>
          by_cases hx : existsSync fs dir
          · rw [if_pos hx] at heq
            exact (congrArg (fun x => x.1.pTimer) heq).symm.trans
              (V1.pWatchDir_pTimer1 _ _ _)
          · rw [if_neg hx] at heq
            exact (congrArg (fun x => x.1.pTimer) heq).symm.trans
              (V1.pUnwatchDir_pTimer1 _ _)
        · next s2 heq =>
          rw [V1.checkFileFold_pTimer1]
          dsimp only
          by_cases hx : existsSync fs dir
          · rw [if_pos hx] at heq
            exact (congrArg (fun x => x.1.pTimer) heq).symm.trans
              (V1.pWatchDir_pTimer1 _ _ _)
          · rw [if_neg hx] at heq
            exact (congrArg (fun x => x.1.pTimer) heq).symm.trans
              (V1.pUnwatchDir_pTimer1 _ _)
      · rfl

theorem V1.pCheckFolders_pTimer1 (s : V1.State) (fs : FsT) :
    (V1.pCheckFolders s fs).1.pTimer = s.pTimer := by
  unfold V1.pCheckFolders
  generalize (s.pWatchers.map Prod.fst) = l
  suffices h : ∀ (l : List String) (acc : V1.State × List Event × Option String),
      (l.foldl (V1.checkDirStep fs) acc).1.pTimer = acc.1.pTimer by
    exact h l (s, [], none)
  intro l
  induction l with
  | nil => intro acc; rfl
  | cons x t ih =>
    intro acc
    rw [List.foldl_cons, ih, V1.checkDirStep_pTimer1]

theorem V1.restoreFold_pTimer1 (fs : FsT) (files : List (String × FileStub))
    (acc : V1.State × List Event × Option String) :
    (files.foldl (V1.restoreStep fs) acc).1.pTimer = acc.1.pTimer := by
  induction files generalizing acc with
  | nil => rfl
  | cons kv t ih =>
    rw [List.foldl_cons, ih]
    unfold V1.restoreStep
    split
    · rfl
    · dsimp only
      split
      · next s2 e heq =>
        exact (congrArg (fun x => x.1.pTimer) heq).symm.trans (V1.watch_pTimer1 _ _ _)
      · next s2 heq =>
        have hw := (congrArg (fun x => x.1.pTimer) heq).symm.trans
          (V1.watch_pTimer1 _ fs kv.1)
        split
        · exact hw
        · split
          · exact hw
          · split
            · exact hw
            · exact hw

theorem V1.restore_pTimer1 (s : V1.State) (fs : FsT)
    (snap : List (String × FileStub)) :
    (V1.restore s fs snap).1.pTimer = s.pTimer := by
  unfold V1.restore
  rw [V1.reset_eq1]
  dsimp only
  rw [V1.restoreFold_pTimer1]

theorem V1.handleChange_validate1 (s : V1.State) (fs : FsT) (dir fn : String)
    (stub : FileStub) (o n : Stat)
    (hv : s.pOptions.validate = true)
    (hf : lookupK s.pFiles (dir ++ fn) = some stub)
    (ho : stub.stat = some o)
    (hp : V1.pGetFileStat s.pOptions.validate fs (dir ++ fn) = some n)
    (hsz : n.size = o.size) :
    (n.crc32 = o.crc32 →
      V1.pHandleChange s fs dir kFileChangeEventName fn =
        ({ s with pFiles := updateK s.pFiles (dir ++ fn) (fun st => { st with stat := some n }) }, [], none)) ∧
    (n.crc32 ≠ o.crc32 →
      V1.pHandleChange s fs dir kFileChangeEventName fn =
        ({ s with pFiles := updateK s.pFiles (dir ++ fn) (fun st => { st with stat := some n }) },
         [{ evt := kFileChangeEventName, name := stub.name, arg := CbArg.stat (some n) }], none)) := by
  constructor
  · intro hcrc
    simp only [V1.pHandleChange, hf, hp, ho]
    simp [kFileChangeEventName, kFileRenameEventName, hv, hsz, hcrc]
  · intro hcrc
    simp only [V1.pHandleChange, hf, hp, ho]
    simp [kFileChangeEventName, kFileRenameEventName, hv, hsz, hcrc]

theorem V0.handleRename_xor (s : V0.State) (fs : FsT) (dir fn : String)
    (stub : FileStub) (nstat : Option Stat)
    (hf : lookupK s.pFiles (dir ++ fn) = some stub)
    (hp : V0.pGetFileStat s.pOptions.validate fs (dir ++ fn) = Except.ok nstat) :
    V0.pCheckFileExistenceChange s (dir ++ fn) nstat =
      (if Bool.xor stub.stat.isSome nstat.isSome then
        (if nstat.isSome then some kFileCreateEventName else some kFileRemoveEventName)
      else none) ∧
    (V0.pHandleChange s fs dir kFileRenameEventName fn).2.1 =
      [{ evt := if Bool.xor stub.stat.isSome nstat.isSome then
            (if nstat.isSome then kFileCreateEventName else kFileRemoveEventName)
          else kFileRenameEventName,
         name := stub.name, arg := CbArg.stat nstat }] := by
  have hc : V0.pCheckFileExistenceChange s (dir ++ fn) nstat =
      (if Bool.xor stub.stat.isSome nstat.isSome then
        (if nstat.isSome then some kFileCreateEventName else some kFileRemoveEventName)
      else none) := by
    simp only [V0.pCheckFileExistenceChange, hf]
  refine ⟨hc, ?_⟩
  simp only [V0.pHandleChange, hf, hp, hc]
  cases ho : stub.stat <;> cases hn : nstat <;> simp

theorem V1.handleRename_xor1 (s : V1.State) (fs : FsT) (dir fn : String)
    (stub : FileStub) (nstat : Option Stat)
    (hf : lookupK s.pFiles (dir ++ fn) = some stub)
    (hp : V1.pGetFileStat s.pOptions.validate fs (dir ++ fn) = nstat) :
    V1.pCheckFileExistenceChange s (dir ++ fn) nstat =
      (if Bool.xor stub.stat.isSome nstat.isSome then
        (if nstat.isSome then some kFileCreateEventName else some kFileRemoveEventName)
      else none) ∧
    (V1.pHandleChange s fs dir kFileRenameEventName fn).2.1 =
      [{ evt := if Bool.xor stub.stat.isSome nstat.isSome then
            (if nstat.isSome then kFileCreateEventName else kFileRemoveEventName)
          else kFileRenameEventName,
         name := stub.name, arg := CbArg.stat nstat }] := by
  have hc : V1.pCheckFileExistenceChange s (dir ++ fn) nstat =
      (if Bool.xor stub.stat.isSome nstat.isSome then
        (if nstat.isSome then some kFileCreateEventName else some kFileRemoveEventName)
      else none) := by
    simp only [V1.pCheckFileExistenceChange, hf]
  refine ⟨hc, ?_⟩
  simp only [V1.pHandleChange, hf, hp, hc]
  cases ho : stub.stat <;> cases hn : nstat <;> simp

/-! ## Claim theorems -/

/-- C1. Snapshot round trip, evaluated on the code, in both versions. With
`validate = true` the event counts match the claim — `save(); reset();
restore(snapshot)` on an unchanged filesystem emits zero events, and exactly
one `change` when one watched file's content changed — but the third
callback argument is `nstat.crc32` (the bare fingerprint), not the new stat
object the claim and the spec's callback contract describe; the final
conjunct records that a `CbArg.crc` argument is not a stat argument for any
stat. With `validate = false` even the counts fail: `restore` compares
`nstat.mtime != stat.mtime`, a reference inequality of two distinct Date
objects that is always true, so a spurious `change` (third argument
`undefined`) fires for every surviving watched file — here two events on
the unchanged filesystem, and two (not one) after a single rewrite. -/
theorem C1_restore_fingerprint_not_stat :
    (V0.restore w0v fsBase (V0.save w0v)).2 = ([], none) ∧
    (V1.restore w1v fsBase (V1.save w1v)).2 = ([], none) ∧
    (V0.restore w0v fsChangedF (V0.save w0v)).2 =
      ([{ evt := kFileChangeEventName, name := "/a/f",
          arg := CbArg.crc (some 222) }], none) ∧
    (V1.restore w1v fsChangedF (V1.save w1v)).2 =
      ([{ evt := kFileChangeEventName, name := "/a/f",
          arg := CbArg.crc (some 222) }], none) ∧
    (V0.restore w0d fsBase (V0.save w0d)).2 =
      ([{ evt := kFileChangeEventName, name := "/a/f", arg := CbArg.crc none },
        { evt := kFileChangeEventName, name := "/a/g", arg := CbArg.crc none }],
       none) ∧
    (V1.restore w1d fsBase (V1.save w1d)).2 =
      ([{ evt := kFileChangeEventName, name := "/a/f", arg := CbArg.crc none },
        { evt := kFileChangeEventName, name := "/a/g", arg := CbArg.crc none }],
       none) ∧
    (V0.restore w0d fsChangedF (V0.save w0d)).2 =
      ([{ evt := kFileChangeEventName, name := "/a/f", arg := CbArg.crc none },
        { evt := kFileChangeEventName, name := "/a/g", arg := CbArg.crc none }],
       none) ∧
    (V1.restore w1d fsChangedF (V1.save w1d)).2 =
      ([{ evt := kFileChangeEventName, name := "/a/f", arg := CbArg.crc none },
        { evt := kFileChangeEventName, name := "/a/g", arg := CbArg.crc none }],
       none) ∧
    ∀ st : Option Stat, CbArg.crc (some 222) ≠ CbArg.stat st := by
  refine ⟨by decide, by decide, by decide, by decide, by decide, by decide,
    by decide, by decide, ?_⟩
  intro st h
  exact CbArg.noConfusion h

/-- C2. "No public operation ever throws" fails on the code: in `part_000`,
`unwatch` of the last watched file in a directory throws (its local `dir` is
never assigned, so `pUnwatchDir` reads a missing stub); in both versions,
`restore` over a snapshot entry whose file has meanwhile disappeared
evaluates `nstat.crc32` on `null` and throws; in `part_000`, `watch` of an
absent path throws on `stat.isDirectory()`; and in `lib/index.js`,
`pGetFileStat` of a directory with `validate = true` throws `EISDIR` inside
`readFileSync`. In each case zero further callbacks fire. -/
theorem C2_operations_throw :
    (V1.unwatch (V1.unwatch w1d "/a/f").1 "/a/g").2 =
      some "TypeError: cannot read handler of undefined" ∧
    (V0.restore w0v fsRemovedF (V0.save w0v)).2.2 =
      some "TypeError: cannot read crc32 of null" ∧
    (V0.restore w0v fsRemovedF (V0.save w0v)).2.1 = [] ∧
    (V1.watch (V1.mkFileWatcher defaultOpts) fsBase "/b/g").2 =
      some "TypeError: cannot call isDirectory of null" ∧
    V0.pGetFileStat true fsBase "/a" =
      Except.error "EISDIR: readFileSync on a directory" := by
  exact ⟨by decide, by decide, by decide, by decide, by rfl⟩

/-- C3. `watch` of an absent path, evaluated on the code: `part_000` records
the entry with the Absent (`null`) stat but then throws calling
`stat.isDirectory()` and never creates the owning directory group, so the
call fails rather than returning normally; `lib/index.js` behaves as the
claim states — no error, Absent stat recorded, group created with a live
handle and `count = 1`. -/
theorem C3_watch_absent_path :
    (V1.watch (V1.mkFileWatcher defaultOpts) fsBase "/b/g").2 =
      some "TypeError: cannot call isDirectory of null" ∧
    (V1.watch (V1.mkFileWatcher defaultOpts) fsBase "/b/g").1.pWatchers = [] ∧
    lookupK (V1.watch (V1.mkFileWatcher defaultOpts) fsBase "/b/g").1.pFiles
      "/b/g" = some { name := "/b/g", stat := none } ∧
    (V0.watch (V0.mkFileWatcher defaultOpts) fsBase "/b/g").2 = none ∧
    lookupK (V0.watch (V0.mkFileWatcher defaultOpts) fsBase "/b/g").1.pFiles
      "/b/g" = some { name := "/b/g", stat := none } ∧
    lookupK (V0.watch (V0.mkFileWatcher defaultOpts) fsBase "/b/g").1.pDirs
      "/b/" = some { handler := true, count := 1, watchDir := false } := by
  exact ⟨by decide, by decide, by decide, by decide, by decide, by decide⟩

/-- C4. Directory share and group lifecycle, evaluated on the code: in
`lib/index.js` the claim's scenario holds (one shared group with `count = 2`,
then `1`, then the group is destroyed). In `part_000` the same scenario
breaks: the second `unwatch` throws (the unassigned `dir` bug) before
`delete this.pWatchers[dir]` runs, leaving the group alive with
`fileRefCount = 0` and a live handle — violating the claimed invariant. -/
theorem C4_directory_share_lifecycle :
    w0d.pDirs = [("/a/", { handler := true, count := 2, watchDir := false })] ∧
    (V0.unwatch w0d "/a/f").2 = none ∧
    (V0.unwatch w0d "/a/f").1.pDirs =
      [("/a/", { handler := true, count := 1, watchDir := false })] ∧
    (V0.unwatch (V0.unwatch w0d "/a/f").1 "/a/g").2 = none ∧
    (V0.unwatch (V0.unwatch w0d "/a/f").1 "/a/g").1.pDirs = [] ∧
    w1d.pWatchers = [("/a/", { handler := true, count := 2, watchDir := false })] ∧
    (V1.unwatch w1d "/a/f").2 = none ∧
    (V1.unwatch w1d "/a/f").1.pWatchers =
      [("/a/", { handler := true, count := 1, watchDir := false })] ∧
    (V1.unwatch (V1.unwatch w1d "/a/f").1 "/a/g").2 =
      some "TypeError: cannot read handler of undefined" ∧
    (V1.unwatch (V1.unwatch w1d "/a/f").1 "/a/g").1.pWatchers =
      [("/a/", { handler := true, count := 0, watchDir := false })] := by
  exact ⟨by decide, by decide, by decide, by decide, by decide, by decide,
    by decide, by decide, by decide, by decide⟩

/-- C5 counterexample: a rename-kind raw event for a watched file that
existed before and still exists (`oldExists = newExists = true`) does NOT
emit nothing — `pHandleChange` forwards the raw `rename` to the callback
(`pCheckFileExistenceChange(...) || evt` falls back to `evt`). -/
theorem C5_counterexample :
    (V0.pHandleChange w0d fsBase "/a/" kFileRenameEventName "f").2.1 =
      [{ evt := kFileRenameEventName, name := "/a/f",
         arg := CbArg.stat
           (some { size := 3, mtime := 100, isDir := false, crc32 := none }) }] ∧
    (V0.pHandleChange w0d fsBase "/a/" kFileRenameEventName "f").2.1 ≠ [] := by
  exact ⟨by decide, by decide⟩

/-- C8 counterexample: `watch(p)` twice is not always "a silent no-op and not
an error": with `validate = true` in `lib/index.js` and `p` a directory, the
probe throws `EISDIR` on both calls, so the second call is an error too
(the registry state is nevertheless unchanged). -/
theorem C8_counterexample :
    (V0.watch (V0.watch (V0.mkFileWatcher optsValidate) fsBase "/a").1 fsBase
      "/a").2 = some "EISDIR: readFileSync on a directory" := by
  decide


/-- C5 (amended). Existence XOR correctness as the code implements it: for
every watched file target and every combination of old/new existence,
`pCheckFileExistenceChange` returns `create` iff (¬oldExists ∧ newExists),
`remove` iff (oldExists ∧ ¬newExists), and `null` iff they agree; and the
classifier driven by a rename-kind raw event emits exactly one event —
`create`/`remove` per that rule, or the raw `rename` forwarded unchanged
when existence did not change (never "nothing"). Proved for both source
versions. -/
theorem C5_existence_xor_amended :
    (∀ (s : V0.State) (fs : FsT) (dir fn : String) (stub : FileStub)
        (nstat : Option Stat),
      lookupK s.pFiles (dir ++ fn) = some stub →
      V0.pGetFileStat s.pOptions.validate fs (dir ++ fn) = Except.ok nstat →
      V0.pCheckFileExistenceChange s (dir ++ fn) nstat =
        (if Bool.xor stub.stat.isSome nstat.isSome then
          (if nstat.isSome then some kFileCreateEventName
           else some kFileRemoveEventName)
        else none) ∧
      (V0.pHandleChange s fs dir kFileRenameEventName fn).2.1 =
        [{ evt := if Bool.xor stub.stat.isSome nstat.isSome then
              (if nstat.isSome then kFileCreateEventName else kFileRemoveEventName)
            else kFileRenameEventName,
           name := stub.name, arg := CbArg.stat nstat }]) ∧
    (∀ (s : V1.State) (fs : FsT) (dir fn : String) (stub : FileStub)
        (nstat : Option Stat),
      lookupK s.pFiles (dir ++ fn) = some stub →
      V1.pGetFileStat s.pOptions.validate fs (dir ++ fn) = nstat →
      V1.pCheckFileExistenceChange s (dir ++ fn) nstat =
        (if Bool.xor stub.stat.isSome nstat.isSome then
          (if nstat.isSome then some kFileCreateEventName
           else some kFileRemoveEventName)
        else none) ∧
      (V1.pHandleChange s fs dir kFileRenameEventName fn).2.1 =
        [{ evt := if Bool.xor stub.stat.isSome nstat.isSome then
              (if nstat.isSome then kFileCreateEventName else kFileRemoveEventName)
            else kFileRenameEventName,
           name := stub.name, arg := CbArg.stat nstat }]) := by
  exact ⟨fun s fs dir fn stub nstat hf hp => V0.handleRename_xor s fs dir fn stub nstat hf hp,
    fun s fs dir fn stub nstat hf hp => V1.handleRename_xor1 s fs dir fn stub nstat hf hp⟩

/-- C5 witness: the amended theorem applied to a watcher of `/a/f` whose
file has been deleted (oldExists = true, newExists = false), yielding one
`remove` event. -/
theorem C5_witness :
    (V0.pHandleChange w0d fsRemovedF "/a/" kFileRenameEventName "f").2.1 =
      [{ evt := kFileRemoveEventName, name := "/a/f", arg := CbArg.stat none }] := by
  have h := ((C5_existence_xor_amended.1 w0d fsRemovedF "/a/" "f"
      { name := "/a/f", stat := some { size := 3, mtime := 100, isDir := false, crc32 := none } }
      none rfl rfl)).2
  rw [h]
  decide

/-- C6. Validation suppression with unconditional stat refresh, in both
source versions: with `validate = true`, a change-kind raw event whose new
probe agrees with the stored stat on size and fingerprint invokes no
callback yet still replaces the stored stat with the new one; when the
fingerprints differ (a rewrite with different bytes of the same size),
exactly one `change` event fires with the new stat. -/
theorem C6_validation_suppression :
    (∀ (s : V0.State) (fs : FsT) (dir fn : String) (stub : FileStub) (o n : Stat),
      s.pOptions.validate = true →
      lookupK s.pFiles (dir ++ fn) = some stub →
      stub.stat = some o →
      V0.pGetFileStat s.pOptions.validate fs (dir ++ fn) = Except.ok (some n) →
      n.size = o.size →
      ((n.crc32 = o.crc32 →
        V0.pHandleChange s fs dir kFileChangeEventName fn =
          ({ s with pFiles := updateK s.pFiles (dir ++ fn) (fun st => { st with stat := some n }) }, [], none)) ∧
       (n.crc32 ≠ o.crc32 →
        V0.pHandleChange s fs dir kFileChangeEventName fn =
          ({ s with pFiles := updateK s.pFiles (dir ++ fn) (fun st => { st with stat := some n }) },
           [{ evt := kFileChangeEventName, name := stub.name, arg := CbArg.stat (some n) }], none)))) ∧
    (∀ (s : V1.State) (fs : FsT) (dir fn : String) (stub : FileStub) (o n : Stat),
      s.pOptions.validate = true →
      lookupK s.pFiles (dir ++ fn) = some stub →
      stub.stat = some o →
      V1.pGetFileStat s.pOptions.validate fs (dir ++ fn) = some n →
      n.size = o.size →
      ((n.crc32 = o.crc32 →
        V1.pHandleChange s fs dir kFileChangeEventName fn =
          ({ s with pFiles := updateK s.pFiles (dir ++ fn) (fun st => { st with stat := some n }) }, [], none)) ∧
       (n.crc32 ≠ o.crc32 →
        V1.pHandleChange s fs dir kFileChangeEventName fn =
          ({ s with pFiles := updateK s.pFiles (dir ++ fn) (fun st => { st with stat := some n }) },
           [{ evt := kFileChangeEventName, name := stub.name, arg := CbArg.stat (some n) }], none)))) := by
  exact ⟨fun s fs dir fn stub o n hv hf ho hp hsz =>
      V0.handleChange_validate s fs dir fn stub o n hv hf ho hp hsz,
    fun s fs dir fn stub o n hv hf ho hp hsz =>
      V1.handleChange_validate1 s fs dir fn stub o n hv hf ho hp hsz⟩

/-- C6 witness: the theorem applied to a `validate = true` watcher of
`/a/f` — the unchanged probe suppresses the event (while refreshing the
stat), and the same-size different-fingerprint rewrite fires exactly one
`change` with the new stat. -/
theorem C6_witness :
    (V0.pHandleChange w0v fsBase "/a/" kFileChangeEventName "f").2 = ([], none) ∧
    (V0.pHandleChange w0v fsChangedF "/a/" kFileChangeEventName "f").2 =
      ([{ evt := kFileChangeEventName, name := "/a/f",
          arg := CbArg.stat (some { size := 3, mtime := 200, isDir := false, crc32 := some 222 }) }], none) ∧
    (V1.pHandleChange w1v fsBase "/a/" kFileChangeEventName "f").2 = ([], none) ∧
    (V1.pHandleChange w1v fsChangedF "/a/" kFileChangeEventName "f").2 =
      ([{ evt := kFileChangeEventName, name := "/a/f",
          arg := CbArg.stat (some { size := 3, mtime := 200, isDir := false, crc32 := some 222 }) }], none) := by
  have h0 := (C6_validation_suppression.1 w0v fsBase "/a/" "f"
      { name := "/a/f", stat := some { size := 3, mtime := 100, isDir := false, crc32 := some 111 } }
      { size := 3, mtime := 100, isDir := false, crc32 := some 111 }
      { size := 3, mtime := 100, isDir := false, crc32 := some 111 }
      rfl rfl rfl rfl rfl).1 rfl
  have h1 := (C6_validation_suppression.1 w0v fsChangedF "/a/" "f"
      { name := "/a/f", stat := some { size := 3, mtime := 100, isDir := false, crc32 := some 111 } }
      { size := 3, mtime := 100, isDir := false, crc32 := some 111 }
      { size := 3, mtime := 200, isDir := false, crc32 := some 222 }
      rfl rfl rfl rfl rfl).2 (by decide)
  have h2 := (C6_validation_suppression.2 w1v fsBase "/a/" "f"
      { name := "/a/f", stat := some { size := 3, mtime := 100, isDir := false, crc32 := some 111 } }
      { size := 3, mtime := 100, isDir := false, crc32 := some 111 }
      { size := 3, mtime := 100, isDir := false, crc32 := some 111 }
      rfl rfl rfl rfl rfl).1 rfl
  have h3 := (C6_validation_suppression.2 w1v fsChangedF "/a/" "f"
      { name := "/a/f", stat := some { size := 3, mtime := 100, isDir := false, crc32 := some 111 } }
      { size := 3, mtime := 100, isDir := false, crc32 := some 111 }
      { size := 3, mtime := 200, isDir := false, crc32 := some 222 }
      rfl rfl rfl rfl rfl).2 (by decide)
  exact ⟨by rw [h0], by rw [h1], by rw [h2], by rw [h3]⟩

/-- C7. StatProbe totality and fingerprint scope, evaluated on the code:
`part_000`'s probe is total — missing paths yield the explicit Absent value
and directories never receive a fingerprint — but `lib/index.js`'s probe
(which lacks the `isFile()` guard) throws `EISDIR` on a directory when
`validate = true`, contradicting the claim and its own "without throw" doc
comment. -/
theorem C7_probe_totality :
    (∀ (validate : Bool) (fs : FsT) (p : String),
      fsGet fs p = none → V1.pGetFileStat validate fs p = none) ∧
    (∀ (validate : Bool) (fs : FsT) (p : String) (sz mt : Nat),
      fsGet fs p = some (Entry.dir sz mt) →
      V1.pGetFileStat validate fs p =
        some { size := sz, mtime := mt, isDir := true, crc32 := none }) ∧
    V0.pGetFileStat true fsBase "/a" =
      Except.error "EISDIR: readFileSync on a directory" := by
  refine ⟨?_, ?_, by rfl⟩
  · intro v fs p h
    unfold V1.pGetFileStat
    rw [h]
  · intro v fs p sz mt h
    unfold V1.pGetFileStat
    rw [h]

/-- C7 witness: the totality statements applied to a missing path and to an
existing directory. -/
theorem C7_witness :
    V1.pGetFileStat true fsBase "/c" = none ∧
    V1.pGetFileStat true fsBase "/a" =
      some { size := 10, mtime := 5, isDir := true, crc32 := none } :=
  ⟨C7_probe_totality.1 true fsBase "/c" (by decide),
   C7_probe_totality.2.1 true fsBase "/a" 10 5 (by decide)⟩

/-- C8 (amended). Idempotent watch: in both versions, `watch(p)` twice
leaves exactly the state of calling it once; in `lib/index.js` the second
call is a silent error-free no-op whenever the first call did not throw, and
in `part_000` the second call is always a silent no-op (even a throwing
first call records the registry entry before throwing). -/
theorem C8_watch_idempotent_amended :
    (∀ (s : V0.State) (fs : FsT) (p : String),
      (V0.watch (V0.watch s fs p).1 fs p).1 = (V0.watch s fs p).1 ∧
      ((V0.watch s fs p).2 = none →
        V0.watch (V0.watch s fs p).1 fs p = ((V0.watch s fs p).1, none))) ∧
    (∀ (s : V1.State) (fs : FsT) (p : String),
      V1.watch (V1.watch s fs p).1 fs p = ((V1.watch s fs p).1, none)) := by
  exact ⟨fun s fs p => ⟨(V0.watch_pair s fs p).2, (V0.watch_pair s fs p).1⟩,
    fun s fs p => V1.watch_pair1 s fs p⟩

/-- C8 witness: the amended theorem applied to a fresh watcher and `/a/f`
(the first call succeeds, so the second call is a silent no-op). -/
theorem C8_witness :
    V0.watch (V0.watch (V0.mkFileWatcher defaultOpts) fsBase "/a/f").1 fsBase "/a/f" =
      ((V0.watch (V0.mkFileWatcher defaultOpts) fsBase "/a/f").1, none) ∧
    V1.watch (V1.watch (V1.mkFileWatcher defaultOpts) fsBase "/a/f").1 fsBase "/a/f" =
      ((V1.watch (V1.mkFileWatcher defaultOpts) fsBase "/a/f").1, none) :=
  ⟨(C8_watch_idempotent_amended.1 (V0.mkFileWatcher defaultOpts) fsBase "/a/f").2 (by decide),
   C8_watch_idempotent_amended.2 (V1.mkFileWatcher defaultOpts) fsBase "/a/f"⟩

/-- C9. Reset finality, in both versions: `reset()` returns with both maps
cleared (so no group retains a native handle and nothing remains for native
deliveries to target) and without throwing, and afterwards a reconciliation
tick — or any sequence of ticks over any filesystem snapshots — leaves the
state unchanged and invokes the callback zero times, until `watch()`
repopulates the maps. -/
theorem C9_reset_finality :
    (∀ s : V0.State,
      V0.reset s = ({ s with pFiles := [], pDirs := [] }, none) ∧
      (V0.reset s).1.pDirs = [] ∧
      (∀ fs, V0.pCheckFolders (V0.reset s).1 fs = ((V0.reset s).1, [], none)) ∧
      (∀ fss, V0.runTicks (V0.reset s).1 fss = ((V0.reset s).1, [], none))) ∧
    (∀ s : V1.State,
      V1.reset s = ({ s with pFiles := [], pWatchers := [] }, none) ∧
      (V1.reset s).1.pWatchers = [] ∧
      (∀ fs, V1.pCheckFolders (V1.reset s).1 fs = ((V1.reset s).1, [], none)) ∧
      (∀ fss, V1.runTicks (V1.reset s).1 fss = ((V1.reset s).1, [], none))) := by
  constructor
  · intro s
    have he := V0.reset_eq s
    have hd : (V0.reset s).1.pDirs = [] := by rw [he]
    exact ⟨he, hd, fun fs => V0.pCheckFolders_of_empty _ hd fs,
      fun fss => V0.runTicks_of_empty _ hd fss⟩
  · intro s
    have he := V1.reset_eq1 s
    have hd : (V1.reset s).1.pWatchers = [] := by rw [he]
    exact ⟨he, hd, fun fs => V1.pCheckFolders_of_empty1 _ hd fs,
      fun fss => V1.runTicks_of_empty1 _ hd fss⟩

/-- C10. Frame effect of `reset` and timer persistence: `reset` mutates only
the file registry and the group map (every other field, including the timer
flag, is untouched); the constructor installs the timer (unconditionally in
`lib/index.js`, iff `interval > 0` in `part_000`); no exposed operation ever
changes the timer flag; and after `reset()` a reconciliation tick runs
harmlessly over the empty maps (no events, no state change, no throw). -/
theorem C10_reset_frame_timer :
    (∀ s : V0.State, (V0.reset s).1 = { s with pFiles := [], pDirs := [] }) ∧
    (∀ opts : Opts, (V0.mkFileWatcher opts).pTimer = true) ∧
    (∀ (s : V0.State) (fs : FsT) (p : String), (V0.watch s fs p).1.pTimer = s.pTimer) ∧
    (∀ (s : V0.State) (p : String), (V0.unwatch s p).1.pTimer = s.pTimer) ∧
    (∀ (s : V0.State) (fs : FsT), (V0.pCheckFolders s fs).1.pTimer = s.pTimer) ∧
    (∀ (s : V0.State) (fs : FsT) (snap : List (String × FileStub)),
      (V0.restore s fs snap).1.pTimer = s.pTimer) ∧
    (∀ (s : V0.State) (fs : FsT),
      V0.pCheckFolders (V0.reset s).1 fs = ((V0.reset s).1, [], none)) ∧
    (∀ s : V1.State, (V1.reset s).1 = { s with pFiles := [], pWatchers := [] }) ∧
    (∀ opts : Opts,
      (V1.mkFileWatcher opts).pTimer = if 0 < opts.interval then true else false) ∧
    (∀ (s : V1.State) (fs : FsT) (p : String), (V1.watch s fs p).1.pTimer = s.pTimer) ∧
    (∀ (s : V1.State) (p : String), (V1.unwatch s p).1.pTimer = s.pTimer) ∧
    (∀ (s : V1.State) (fs : FsT), (V1.pCheckFolders s fs).1.pTimer = s.pTimer) ∧
    (∀ (s : V1.State) (fs : FsT) (snap : List (String × FileStub)),
      (V1.restore s fs snap).1.pTimer = s.pTimer) ∧
    (∀ (s : V1.State) (fs : FsT),
      V1.pCheckFolders (V1.reset s).1 fs = ((V1.reset s).1, [], none)) := by
  refine ⟨fun s => by rw [V0.reset_eq], fun opts => rfl, V0.watch_pTimer,
    V0.unwatch_pTimer, V0.pCheckFolders_pTimer, V0.restore_pTimer, ?_,
    fun s => by rw [V1.reset_eq1], fun opts => rfl, V1.watch_pTimer1,
    V1.unwatch_pTimer1, V1.pCheckFolders_pTimer1, V1.restore_pTimer1, ?_⟩
  · intro s fs
    exact V0.pCheckFolders_of_empty _ (by rw [V0.reset_eq]) fs
  · intro s fs
    exact V1.pCheckFolders_of_empty1 _ (by rw [V1.reset_eq1]) fs

end FileWatcherModel
